import Mathlib

/-!
Verification of the MithrilEngine render-frame lifecycle.

This file gives a shallow embedding of the render-context frame recorder
(src/render/mod.rs), the transform component (src/component/mod.rs) and the
physical-device selection logic, and proves the testable properties stated in
the specification against it.

Modelling conventions:
- The vulkano GPU futures are modelled by the inductive `Sig`: a leaf is one
  upload-completion signal, `Sig.join` is the `GpuFuture::join` combinator.
  The semantics of a composite future (the set of signals a queue submission
  actually waits on) is its multiset of leaves.
- `Rc<pipeline::Pipeline>` values held in the material-pipeline map are
  modelled by `Pipeline` records that carry a count `strongExt` of strong
  references held outside the registry map; `Rc::get_mut` succeeds exactly
  when no such outside strong reference and no weak reference exists.  The
  only weak reference the program ever creates is the `bound_pipeline` field
  (created by `Rc::downgrade` in `bind_pipeline`), so it is modelled by an
  `Option String` naming the bound pipeline.
- The swapchain module is code of the repository that is not available here;
  its acquire operation is modelled from the spec: it yields the next
  framebuffer plus a `resized` flag, which we pass to `beginMainRenderPass`
  as an input, and its submit operation records the submitted command list
  together with the composite wait signal in the `submitted` history.
- The command-buffer builder (vulkano `AutoCommandBufferBuilder`) is an
  external collaborator; it is modelled as the list of recorded commands plus
  an `inRenderPass` flag, and `begin_render_pass` fails when a render pass is
  already active, per its documented behaviour.
-/

namespace MithrilEngine

/-- A composite GPU future: either a single upload-completion signal
(identified by a number) or a `GpuFuture::join` of two futures. -/
inductive Sig where
  | leaf (id : Nat)
  | join (a b : Sig)
deriving DecidableEq, Repr

/-- The set of elementary signals a composite future waits on:
joining futures waits on the union (as a multiset) of their signals. -/
def Sig.leaves : Sig → Multiset Nat
  | .leaf id => {id}
  | .join a b => a.leaves + b.leaves

/-- The wait gate a queue submission receives: no pending future means an
empty wait set, otherwise the leaves of the composite future. -/
def waitGate : Option Sig → Multiset Nat
  | none => 0
  | some f => f.leaves

/-- A material pipeline as stored in the `material_pipelines` map of
`RenderContext` (src/render/mod.rs).  `viewport` is the mutable viewport
rectangle (width, height); `strongExt` counts strong `Rc` references to this
pipeline held outside the registry map. -/
structure Pipeline where
  viewport : Nat × Nat
  strongExt : Nat
deriving DecidableEq, Repr

/-- Commands recorded into the current command buffer builder. -/
inductive Cmd where
  | beginRenderPass
  | endRenderPass
  | bindPipeline (name : String)
  | bindDescriptorSets (firstSet : Nat) (sets : Nat)
  | bindVertexBuffers (firstBinding : Nat)
  | draw (vertexCount instanceCount firstVertex firstInstance : Nat)
deriving DecidableEq, Repr

/-- Errors surfaced by the render-context operations.  `pipelineNotLoaded`
and `pipelineInUse` come from the repository source (the latter is the error
string in begin_main_render_pass); the render-pass and command-buffer errors
are the backend errors propagated with the question-mark operator.
`alreadyRecording` is the usage error named by the specification; the source
never produces it, it is declared here so that statements about it can be
made. -/
inductive RenderErr where
  | pipelineNotLoaded
  | pipelineInUse
  | renderPassAlreadyActive
  | renderPassNotActive
  | noActiveQueueFamily
  | commandBufferAllocFailed
  | commandBufferBuildFailed
  | presentFailed
  | alreadyRecording
deriving DecidableEq, Repr

/-- The state of `RenderContext` (src/render/mod.rs), restricted to the
fields the frame lifecycle touches.  `pipelines` is the association list
modelling `material_pipelines` (HashMap iteration is modelled as list order);
`boundPipeline` is the weak `bound_pipeline` reference; `curCmds` and
`inRenderPass` model the current `AutoCommandBufferBuilder`; `submitted` is
the history of swapchain submissions (command list, composite wait signal);
`surfaceDims` is the current swapchain surface size. -/
structure RenderContext where
  pipelines : List (String × Pipeline)
  boundPipeline : Option String
  curCmds : List Cmd
  inRenderPass : Bool
  uploadFutures : Option Sig
  uploadFuturesCount : Nat
  submitted : List (List Cmd × Option Sig)
  surfaceDims : Nat × Nat
deriving DecidableEq, Repr

def uiName : String := "UI"

def worldName : String := "World"

/-- Name lookup in the material-pipeline map (HashMap::get). -/
def lookupPipeline (ps : List (String × Pipeline)) (name : String) : Option Pipeline :=
  match ps.find? (fun p => p.1 == name) with
  | some p => some p.2
  | none => none

/-- Whether `Rc::get_mut` succeeds on the map entry `name`: it requires that
no strong reference outside the map and no weak reference (the only possible
one being `bound_pipeline`) points at the pipeline. -/
def canGetMut (bound : Option String) (name : String) (pl : Pipeline) : Bool :=
  pl.strongExt == 0 && !(bound == some name)

/-- The resize loop of `begin_main_render_pass`: walk the registered
pipelines in order; for each, obtain exclusive access via `Rc::get_mut` and
set its viewport to `dims`, or stop with the pipeline-in-use error.  Returns
the (possibly partially) updated map together with the error, mirroring that
the Rust loop mutates in place and returns early. -/
def resizePipelines (bound : Option String) (dims : Nat × Nat) :
    List (String × Pipeline) → List (String × Pipeline) × Option RenderErr
  | [] => ([], none)
  | (n, pl) :: rest =>
    if canGetMut bound n pl then
      let r := resizePipelines bound dims rest
      ((n, { pl with viewport := dims }) :: r.1, r.2)
    else
      ((n, pl) :: rest, some RenderErr.pipelineInUse)

/-- `AutoCommandBufferBuilder::begin_render_pass`: fails if a render pass is
already active, otherwise records the begin command (with the fixed clear
color, which we do not track). -/
def RenderContext.beginRenderPassCmd (ctx : RenderContext) :
    RenderContext × Option RenderErr :=
  if ctx.inRenderPass then
    (ctx, some RenderErr.renderPassAlreadyActive)
  else
    ({ ctx with inRenderPass := true, curCmds := ctx.curCmds ++ [Cmd.beginRenderPass] }, none)

/-- `RenderContext::begin_main_render_pass` (src/render/mod.rs).  The
swapchain acquire is modelled from the spec: the `resized` flag it reports is
an input.  On resize the weak `bound_pipeline` reference is destroyed first
(so that `Rc::get_mut` can succeed), then every registered pipeline viewport
is resized to the current surface dimensions; then the render pass begins on
the current command buffer. -/
def RenderContext.beginMainRenderPass (ctx : RenderContext) (resized : Bool) :
    RenderContext × Option RenderErr :=
  if resized then
    let ctx1 : RenderContext := { ctx with boundPipeline := none }
    let r := resizePipelines ctx1.boundPipeline ctx1.surfaceDims ctx1.pipelines
    let ctx2 : RenderContext := { ctx1 with pipelines := r.1 }
    match r.2 with
    | some e => (ctx2, some e)
    | none => ctx2.beginRenderPassCmd
  else
    ctx.beginRenderPassCmd

/-- `RenderContext::end_render_pass`. -/
def RenderContext.endRenderPass (ctx : RenderContext) :
    RenderContext × Option RenderErr :=
  if ctx.inRenderPass then
    ({ ctx with inRenderPass := false, curCmds := ctx.curCmds ++ [Cmd.endRenderPass] }, none)
  else
    (ctx, some RenderErr.renderPassNotActive)

/-- `RenderContext::submit_commands` (src/render/mod.rs).  The fallible
steps of the source are made explicit: `qFamOk` is whether
`active_queue_families().next()` yields a family, `newCbOk` whether the
replacement `AutoCommandBufferBuilder::primary` allocation succeeds,
`buildOk` whether `build()` on the taken builder succeeds, and `presentErr`
the result of the swapchain submit itself.  On the success path the current
recording is swapped for a fresh empty one, the pending upload futures are
taken (count reset to zero) and the swapchain submit receives the recorded
commands gated on the composite signal. -/
def RenderContext.submitCommands (ctx : RenderContext)
    (qFamOk newCbOk buildOk : Bool) (presentErr : Option RenderErr) :
    RenderContext × Option RenderErr :=
  if !qFamOk then
    (ctx, some RenderErr.noActiveQueueFamily)
  else if !newCbOk then
    (ctx, some RenderErr.commandBufferAllocFailed)
  else
    let oldCmds := ctx.curCmds
    let futures := ctx.uploadFutures
    let ctx1 : RenderContext :=
      { ctx with curCmds := [], inRenderPass := false,
                 uploadFutures := none, uploadFuturesCount := 0 }
    if !buildOk then
      (ctx1, some RenderErr.commandBufferBuildFailed)
    else
      ({ ctx1 with submitted := ctx1.submitted ++ [(oldCmds, futures)] }, presentErr)

/-- The upload-future accumulation shared by `new_texture`,
`new_texture_from_iter` and `new_buffer`: the fresh upload future is joined
with whatever was pending (or becomes the pending future if none was), and
the count is incremented.  The returned resource handle is not modelled. -/
def RenderContext.newBuffer (ctx : RenderContext) (uploadFuture : Sig) : RenderContext :=
  { ctx with
    uploadFutures := some (match ctx.uploadFutures with
      | some f => Sig.join uploadFuture f
      | none => uploadFuture),
    uploadFuturesCount := ctx.uploadFuturesCount + 1 }

/-- `RenderContext::new_texture` accumulates its upload future exactly like
`new_buffer`. -/
def RenderContext.newTexture (ctx : RenderContext) (uploadFuture : Sig) : RenderContext :=
  ctx.newBuffer uploadFuture

/-- `RenderContext::bind_pipeline`: look the pipeline up by name, failing
with `PipelineNotLoaded` if absent; otherwise record the bind command and
remember the bound pipeline through the non-owning `bound_pipeline`
reference. -/
def RenderContext.bindPipeline (ctx : RenderContext) (name : String) :
    RenderContext × Option RenderErr :=
  match lookupPipeline ctx.pipelines name with
  | none => (ctx, some RenderErr.pipelineNotLoaded)
  | some _ =>
    ({ ctx with curCmds := ctx.curCmds ++ [Cmd.bindPipeline name],
                boundPipeline := some name }, none)

/-- `RenderContext::bind_descriptor_set`: upgrade the weak `bound_pipeline`
reference, failing with `PipelineNotLoaded` if no pipeline is bound;
otherwise record the descriptor-set bind.  (The upgrade succeeds whenever
the weak reference is set, because the registry map never drops its strong
references.)  The descriptor-set collection is abstracted to a count. -/
def RenderContext.bindDescriptorSet (ctx : RenderContext)
    (firstSet : Nat) (sets : Nat) : RenderContext × Option RenderErr :=
  match ctx.boundPipeline with
  | none => (ctx, some RenderErr.pipelineNotLoaded)
  | some _ =>
    ({ ctx with curCmds := ctx.curCmds ++ [Cmd.bindDescriptorSets firstSet sets] }, none)

/-- `RenderContext::bind_vertex_buffers`: forwarded into the recording. -/
def RenderContext.bindVertexBuffers (ctx : RenderContext) (firstBinding : Nat) :
    RenderContext :=
  { ctx with curCmds := ctx.curCmds ++ [Cmd.bindVertexBuffers firstBinding] }

/-- `RenderContext::draw`: forwarded into the recording. -/
def RenderContext.draw (ctx : RenderContext)
    (vertexCount instanceCount firstVertex firstInstance : Nat) : RenderContext :=
  { ctx with curCmds :=
      ctx.curCmds ++ [Cmd.draw vertexCount instanceCount firstVertex firstInstance] }

/-- The context produced by `RenderContext::new`: a 1280x720 window, the UI
and World pipelines registered with viewports at the swapchain dimensions,
an empty fresh recording, no bound pipeline and no pending upload futures. -/
def RenderContext.freshContext : RenderContext :=
  { pipelines := [(uiName, { viewport := (1280, 720), strongExt := 0 }),
                  (worldName, { viewport := (1280, 720), strongExt := 0 })],
    boundPipeline := none,
    curCmds := [],
    inRenderPass := false,
    uploadFutures := none,
    uploadFuturesCount := 0,
    submitted := [],
    surfaceDims := (1280, 720) }

/-! ### Physical device selection (get_physical_device, src/render/mod.rs) -/

/-- The vulkano physical-device types. -/
inductive DeviceType where
  | discreteGpu
  | integratedGpu
  | virtualGpu
  | cpu
  | other
deriving DecidableEq, Repr

/-- A queue family of a physical device; only its graphics capability
matters to the selection logic. -/
structure QueueFam where
  supportsGraphics : Bool
deriving DecidableEq, Repr

/-- An enumerable physical adapter. -/
structure Adapter where
  devType : DeviceType
  queueFamilies : List QueueFam
deriving DecidableEq, Repr

/-- The adapter-selection step of `get_physical_device`: look for a discrete
GPU; if there is none, look for an integrated GPU instead; with neither, fail
with the no-suitable-adapter error (the source error string). -/
def selectPhysicalDevice (adapters : List Adapter) : Except String Adapter :=
  match adapters.find? (fun pd => pd.devType == DeviceType.discreteGpu) with
  | some g => Except.ok g
  | none =>
    match adapters.find? (fun pd => pd.devType == DeviceType.integratedGpu) with
    | some g => Except.ok g
    | none => Except.error "No GPUs were found!"

/-- `get_physical_device`: select the adapter, then the first queue family
that supports graphics. -/
def getPhysicalDevice (adapters : List Adapter) : Except String (Adapter × QueueFam) :=
  match selectPhysicalDevice adapters with
  | Except.error e => Except.error e
  | Except.ok pd =>
    match pd.queueFamilies.find? (fun q => q.supportsGraphics) with
    | some q => Except.ok (pd, q)
    | none => Except.error "No appropriate queue family found!"

/-! ### Transform component (src/component/mod.rs)

The glam matrix and quaternion arithmetic is f32 in the source; it is
modelled here over an arbitrary commutative ring, with the cosine and sine
of half angles that `Quat::from_euler` takes passed in as function
parameters `c` and `s`. -/

/-- A glam Vec3. -/
structure Vec3 (K : Type) where
  x : K
  y : K
  z : K
deriving DecidableEq, Repr

/-- A glam Quat. -/
structure Quat (K : Type) where
  x : K
  y : K
  z : K
  w : K
deriving DecidableEq, Repr

/-- A glam Mat4 with entries `m i j` at row `i`, column `j`; glam stores and
uploads it column-major (`to_cols_array` lists column 0 first). -/
structure Mat4 (K : Type) where
  m00 : K
  m01 : K
  m02 : K
  m03 : K
  m10 : K
  m11 : K
  m12 : K
  m13 : K
  m20 : K
  m21 : K
  m22 : K
  m23 : K
  m30 : K
  m31 : K
  m32 : K
  m33 : K
deriving DecidableEq, Repr

variable {K : Type} [CommRing K]

/-- Matrix product (row i of `A` dot column j of `B`). -/
def Mat4.mul (A B : Mat4 K) : Mat4 K where
  m00 := A.m00 * B.m00 + A.m01 * B.m10 + A.m02 * B.m20 + A.m03 * B.m30
  m01 := A.m00 * B.m01 + A.m01 * B.m11 + A.m02 * B.m21 + A.m03 * B.m31
  m02 := A.m00 * B.m02 + A.m01 * B.m12 + A.m02 * B.m22 + A.m03 * B.m32
  m03 := A.m00 * B.m03 + A.m01 * B.m13 + A.m02 * B.m23 + A.m03 * B.m33
  m10 := A.m10 * B.m00 + A.m11 * B.m10 + A.m12 * B.m20 + A.m13 * B.m30
  m11 := A.m10 * B.m01 + A.m11 * B.m11 + A.m12 * B.m21 + A.m13 * B.m31
  m12 := A.m10 * B.m02 + A.m11 * B.m12 + A.m12 * B.m22 + A.m13 * B.m32
  m13 := A.m10 * B.m03 + A.m11 * B.m13 + A.m12 * B.m23 + A.m13 * B.m33
  m20 := A.m20 * B.m00 + A.m21 * B.m10 + A.m22 * B.m20 + A.m23 * B.m30
  m21 := A.m20 * B.m01 + A.m21 * B.m11 + A.m22 * B.m21 + A.m23 * B.m31
  m22 := A.m20 * B.m02 + A.m21 * B.m12 + A.m22 * B.m22 + A.m23 * B.m32
  m23 := A.m20 * B.m03 + A.m21 * B.m13 + A.m22 * B.m23 + A.m23 * B.m33
  m30 := A.m30 * B.m00 + A.m31 * B.m10 + A.m32 * B.m20 + A.m33 * B.m30
  m31 := A.m30 * B.m01 + A.m31 * B.m11 + A.m32 * B.m21 + A.m33 * B.m31
  m32 := A.m30 * B.m02 + A.m31 * B.m12 + A.m32 * B.m22 + A.m33 * B.m32
  m33 := A.m30 * B.m03 + A.m31 * B.m13 + A.m32 * B.m23 + A.m33 * B.m33

/-- Quaternion product (glam `Quat::mul`). -/
def Quat.mul (a b : Quat K) : Quat K where
  x := a.w * b.x + a.x * b.w + a.y * b.z - a.z * b.y
  y := a.w * b.y - a.x * b.z + a.y * b.w + a.z * b.x
  z := a.w * b.z + a.x * b.y - a.y * b.x + a.z * b.w
  w := a.w * b.w - a.x * b.x - a.y * b.y - a.z * b.z

/-- glam `Quat::from_euler(EulerRot::XYZ, r.x, r.y, r.z)`: the product of
the axis rotations about X, then Y, then Z.  `c a` and `s a` stand for the
cosine and sine of the half angle `a / 2` used by the axis-quaternion
construction. -/
def quatFromEuler (c s : K → K) (r : Vec3 K) : Quat K :=
  let qx : Quat K := { x := s r.x, y := 0, z := 0, w := c r.x }
  let qy : Quat K := { x := 0, y := s r.y, z := 0, w := c r.y }
  let qz : Quat K := { x := 0, y := 0, z := s r.z, w := c r.z }
  qx.mul (qy.mul qz)

/-- The rotation matrix of a (unit) quaternion, as glam computes it
(`Mat4::from_quat` via `quat_to_axes`): columns `x_axis`, `y_axis`,
`z_axis`, with `w_axis = (0,0,0,1)`. -/
def rotFromQuat (q : Quat K) : Mat4 K :=
  let x2 := q.x + q.x
  let y2 := q.y + q.y
  let z2 := q.z + q.z
  let xx := q.x * x2
  let xy := q.x * y2
  let xz := q.x * z2
  let yy := q.y * y2
  let yz := q.y * z2
  let zz := q.z * z2
  let wx := q.w * x2
  let wy := q.w * y2
  let wz := q.w * z2
  { m00 := 1 - (yy + zz), m01 := xy - wz, m02 := xz + wy, m03 := 0,
    m10 := xy + wz, m11 := 1 - (xx + zz), m12 := yz - wx, m13 := 0,
    m20 := xz - wy, m21 := yz + wx, m22 := 1 - (xx + yy), m23 := 0,
    m30 := 0, m31 := 0, m32 := 0, m33 := 1 }

/-- The pure scale matrix. -/
def scaleMat4 (v : Vec3 K) : Mat4 K where
  m00 := v.x
  m01 := 0
  m02 := 0
  m03 := 0
  m10 := 0
  m11 := v.y
  m12 := 0
  m13 := 0
  m20 := 0
  m21 := 0
  m22 := v.z
  m23 := 0
  m30 := 0
  m31 := 0
  m32 := 0
  m33 := 1

/-- The pure translation matrix (translation in the fourth column, as glam
uses column vectors). -/
def transMat4 (v : Vec3 K) : Mat4 K where
  m00 := 1
  m01 := 0
  m02 := 0
  m03 := v.x
  m10 := 0
  m11 := 1
  m12 := 0
  m13 := v.y
  m20 := 0
  m21 := 0
  m22 := 1
  m23 := v.z
  m30 := 0
  m31 := 0
  m32 := 0
  m33 := 1

/-- glam `Mat4::from_scale_rotation_translation(scale, rotation,
translation)`: the rotation axes scaled by the scale components, with the
translation in the fourth column. -/
def fromScaleRotationTranslation (scale : Vec3 K) (rotation : Quat K)
    (translation : Vec3 K) : Mat4 K :=
  let r := rotFromQuat rotation
  { m00 := r.m00 * scale.x, m10 := r.m10 * scale.x, m20 := r.m20 * scale.x, m30 := 0,
    m01 := r.m01 * scale.y, m11 := r.m11 * scale.y, m21 := r.m21 * scale.y, m31 := 0,
    m02 := r.m02 * scale.z, m12 := r.m12 * scale.z, m22 := r.m22 * scale.z, m32 := 0,
    m03 := translation.x, m13 := translation.y, m23 := translation.z, m33 := 1 }

/-- The `Transform` component (src/component/mod.rs): its device-resident
matrix buffer (which holds the column-major array of `buf`), and the
last-set position, scale and per-axis rotation.  The descriptor set it also
owns plays no role in the matrix invariant and is not modelled. -/
structure Transform (K : Type) where
  buf : Mat4 K
  pos : Vec3 K
  scale : Vec3 K
  rot : Vec3 K
deriving DecidableEq, Repr

/-- `Transform::update_buffer`: recompute the matrix from the current
fields with `Mat4::from_scale_rotation_translation` and overwrite the whole
buffer.  (The source can also fail when the buffer is locked by the device;
this models the successful write.) -/
def Transform.updateBuffer (c s : K → K) (t : Transform K) : Transform K :=
  { t with buf :=
      fromScaleRotationTranslation t.scale (quatFromEuler c s t.rot) t.pos }

/-- `Transform::set_pos`: store the new position, then update the buffer. -/
def Transform.setPos (c s : K → K) (t : Transform K) (p : Vec3 K) : Transform K :=
  Transform.updateBuffer c s { t with pos := p }

/-- `Transform::new`: rotation starts at zero and the buffer is initialized
with the composed matrix. -/
def Transform.create (c s : K → K) (pos scale : Vec3 K) : Transform K :=
  let rot : Vec3 K := { x := 0, y := 0, z := 0 }
  { buf := fromScaleRotationTranslation scale (quatFromEuler c s rot) pos,
    pos := pos, scale := scale, rot := rot }

/-! ### Helper lemmas -/

/-- The fused glam matrix equals the product of the translation, rotation
and scale matrices (column-vector convention: the composite applies the
scale first, then the rotation, then the translation). -/
theorem srt_eq_mul (scale : Vec3 K) (q : Quat K) (translation : Vec3 K) :
    fromScaleRotationTranslation scale q translation
      = (transMat4 translation).mul ((rotFromQuat q).mul (scaleMat4 scale)) := by
  simp only [fromScaleRotationTranslation, rotFromQuat, scaleMat4, transMat4,
    Mat4.mul, Mat4.mk.injEq]
  refine ⟨?_, ?_, ?_, ?_, ?_, ?_, ?_, ?_, ?_, ?_, ?_, ?_, ?_, ?_, ?_, ?_⟩ <;> ring

theorem waitGate_newBuffer (ctx : RenderContext) (f : Sig) :
    waitGate (ctx.newBuffer f).uploadFutures = Sig.leaves f + waitGate ctx.uploadFutures := by
  cases h : ctx.uploadFutures <;>
    simp [RenderContext.newBuffer, waitGate, Sig.leaves, h]

theorem waitGate_foldl (l : List Sig) :
    ∀ ctx : RenderContext,
      waitGate (l.foldl RenderContext.newBuffer ctx).uploadFutures
        = (l.map Sig.leaves).sum + waitGate ctx.uploadFutures := by
  induction l with
  | nil => intro ctx; simp
  | cons f t ih =>
    intro ctx
    simp only [List.foldl_cons, ih, List.map_cons, List.sum_cons, waitGate_newBuffer]
    abel

theorem find?_some_of_mem {α : Type} (p : α → Bool) :
    ∀ {l : List α} {a : α}, a ∈ l → p a = true →
      ∃ b, l.find? p = some b ∧ p b = true := by
  intro l
  induction l with
  | nil => intro a ha; cases ha
  | cons x t ih =>
    intro a ha hp
    by_cases hx : p x = true
    · exact ⟨x, by simp [List.find?_cons, hx], hx⟩
    · rcases List.mem_cons.mp ha with rfl | hmem
      · exact absurd hp hx
      · obtain ⟨b, hb, hpb⟩ := ih hmem hp
        exact ⟨b, by simp [List.find?_cons, hx, hb], hpb⟩

theorem resizePipelines_all_free (dims : Nat × Nat) :
    ∀ ps : List (String × Pipeline), (∀ p ∈ ps, p.2.strongExt = 0) →
      resizePipelines none dims ps
        = (ps.map (fun p => (p.1, { p.2 with viewport := dims })), none) := by
  intro ps
  induction ps with
  | nil => intro _; rfl
  | cons hd t ih =>
    intro h
    have hhd : hd.2.strongExt = 0 := h hd (List.mem_cons_self hd t)
    have ht : ∀ p ∈ t, p.2.strongExt = 0 := fun p hp => h p (List.mem_cons_of_mem hd hp)
    simp [resizePipelines, canGetMut, hhd, ih ht]

theorem resizePipelines_in_use (dims : Nat × Nat) :
    ∀ ps : List (String × Pipeline), (∃ p ∈ ps, p.2.strongExt ≠ 0) →
      (resizePipelines none dims ps).2 = some RenderErr.pipelineInUse
      ∧ ∀ p ∈ ps, p.2.strongExt ≠ 0 → p ∈ (resizePipelines none dims ps).1 := by
  intro ps
  induction ps with
  | nil => rintro ⟨p, hp, _⟩; cases hp
  | cons hd t ih =>
    rintro ⟨q, hq, hq0⟩
    by_cases hhd : hd.2.strongExt = 0
    · have hqt : q ∈ t := by
        rcases List.mem_cons.mp hq with rfl | h
        · exact absurd hhd hq0
        · exact h
      obtain ⟨he, hmem⟩ := ih ⟨q, hqt, hq0⟩
      constructor
      · simp [resizePipelines, canGetMut, hhd, he]
      · intro p hp hp0
        rcases List.mem_cons.mp hp with rfl | hpt
        · exact absurd hhd hp0
        · simp [resizePipelines, canGetMut, hhd]
          exact Or.inr (hmem p hpt hp0)
    · constructor
      · simp [resizePipelines, canGetMut, hhd]
      · intro p hp _
        simpa [resizePipelines, canGetMut, hhd] using hp

/-! ### Claims -/

/-- C7: For every Transform, after every successful mutation (in particular
after set_pos(p)), the device-resident matrix buffer holds exactly the 4x4
matrix composed as scale, then rotation(rot), then translation(p) — the
product translation x rotation x scale in column-vector convention — from
the last-set position, scale and per-axis rotation fields; this also holds
for the matrix the constructor installs. -/
theorem c7_transform_buffer_invariant (c s : K → K) (t : Transform K)
    (p pos scale : Vec3 K) :
    (t.setPos c s p).buf
      = (transMat4 p).mul ((rotFromQuat (quatFromEuler c s t.rot)).mul (scaleMat4 t.scale))
    ∧ (t.setPos c s p).pos = p
    ∧ (t.setPos c s p).scale = t.scale
    ∧ (t.setPos c s p).rot = t.rot
    ∧ (Transform.create c s pos scale).buf
      = (transMat4 pos).mul
          ((rotFromQuat (quatFromEuler c s (Transform.create c s pos scale).rot)).mul
            (scaleMat4 scale)) := by
  refine ⟨?_, rfl, rfl, rfl, ?_⟩
  · simp [Transform.setPos, Transform.updateBuffer, srt_eq_mul]
  · simp [Transform.create, srt_eq_mul]

/-- C8: For every Transform and every position value p, calling set_pos(p)
twice in succession is idempotent: the buffer contents and all stored fields
after the second call equal those after the first call. -/
theorem c8_set_pos_idempotent (c s : K → K) (t : Transform K) (p : Vec3 K) :
    (t.setPos c s p).setPos c s p = t.setPos c s p := by
  rfl

/-- A context with one free pipeline listed before one pipeline that is
still strongly referenced from outside the registry, and a surface that has
grown to 1920x1080. -/
def inUseContext : RenderContext :=
  { RenderContext.freshContext with
      pipelines := [(uiName, { viewport := (1280, 720), strongExt := 0 }),
                    (worldName, { viewport := (1280, 720), strongExt := 1 })],
      surfaceDims := (1920, 1080) }

/-- C1 (counterexample): in `inUseContext` the resize path fails with the
pipeline-in-use error, yet the UI pipeline — iterated before the in-use one
— has already been resized to the new dimensions, so the failure is not
"without resizing". -/
theorem c1_in_use_counterexample :
    (inUseContext.beginMainRenderPass true).2 = some RenderErr.pipelineInUse
    ∧ lookupPipeline (inUseContext.beginMainRenderPass true).1.pipelines uiName
        = some { viewport := (1920, 1080), strongExt := 0 } := by
  constructor <;> rfl

/-- C1 (amended): for every frame whose acquire reports a resize, if no
registered pipeline is referenced from outside the registry then
begin_main_render_pass succeeds (given no render pass is already open) and
every registered pipeline viewport equals the new surface dimensions in the
resulting state, before any subsequent draw; if some registered pipeline is
still referenced from outside the registry, the call fails with the
pipeline-in-use error, the in-use pipelines keep their previous state
unresized, but pipelines earlier in iteration order may already have been
resized. -/
theorem c1_resize_viewports (ctx : RenderContext) :
    ((∀ p ∈ ctx.pipelines, p.2.strongExt = 0) → ctx.inRenderPass = false →
      (ctx.beginMainRenderPass true).2 = none
      ∧ ∀ p ∈ (ctx.beginMainRenderPass true).1.pipelines,
          p.2.viewport = ctx.surfaceDims)
    ∧ ((∃ p ∈ ctx.pipelines, p.2.strongExt ≠ 0) →
      (ctx.beginMainRenderPass true).2 = some RenderErr.pipelineInUse
      ∧ ∀ p ∈ ctx.pipelines, p.2.strongExt ≠ 0 →
          p ∈ (ctx.beginMainRenderPass true).1.pipelines) := by
  constructor
  · intro hfree hrp
    have hr := resizePipelines_all_free ctx.surfaceDims ctx.pipelines hfree
    constructor
    · simp [RenderContext.beginMainRenderPass, hr, RenderContext.beginRenderPassCmd, hrp]
    · intro p hp
      simp [RenderContext.beginMainRenderPass, hr, RenderContext.beginRenderPassCmd,
        hrp, List.mem_map] at hp
      obtain ⟨q, w, _, rfl⟩ := hp
      rfl
  · intro hinuse
    have hr := resizePipelines_in_use ctx.surfaceDims ctx.pipelines hinuse
    constructor
    · rcases h2 : (resizePipelines none ctx.surfaceDims ctx.pipelines).2 with _ | e
      · rw [h2] at hr; exact Option.noConfusion hr.1
      · have he : e = RenderErr.pipelineInUse := by
          have := hr.1; rw [h2] at this; exact Option.some_inj.mp this
        subst he
        simp [RenderContext.beginMainRenderPass, h2]
    · intro p hp hp0
      have := hr.2 p hp hp0
      rcases h2 : (resizePipelines none ctx.surfaceDims ctx.pipelines).2 with _ | e
      · rw [h2] at hr; exact Option.noConfusion hr.1
      · simpa [RenderContext.beginMainRenderPass, h2] using this

/-- C1 (witness): the amended theorem evaluated on the fresh context (all
pipelines free) and on `inUseContext` (one pipeline still referenced). -/
theorem c1_resize_viewports_witness :
    ((RenderContext.freshContext.beginMainRenderPass true).2 = none
      ∧ ∀ p ∈ (RenderContext.freshContext.beginMainRenderPass true).1.pipelines,
          p.2.viewport = RenderContext.freshContext.surfaceDims)
    ∧ ((inUseContext.beginMainRenderPass true).2 = some RenderErr.pipelineInUse
      ∧ ∀ p ∈ inUseContext.pipelines, p.2.strongExt ≠ 0 →
          p ∈ (inUseContext.beginMainRenderPass true).1.pipelines) :=
  ⟨(c1_resize_viewports RenderContext.freshContext).1 (by decide) rfl,
   (c1_resize_viewports inUseContext).2 (by decide)⟩

/-- C2 (counterexample): from a state with one pending upload future, a
submit_commands call in which the replacement command-buffer allocation
fails returns an error having passed nothing to the swapchain and leaving
the pending upload-signal set intact (count still 1), contrary to the claim
that the pending set is empty after every erroring call. -/
theorem c2_alloc_failure_counterexample :
    ((RenderContext.freshContext.newBuffer (Sig.leaf 0)).submitCommands
        true false true none).2 = some RenderErr.commandBufferAllocFailed
    ∧ ((RenderContext.freshContext.newBuffer (Sig.leaf 0)).submitCommands
        true false true none).1.uploadFuturesCount = 1
    ∧ ((RenderContext.freshContext.newBuffer (Sig.leaf 0)).submitCommands
        true false true none).1.submitted = [] := by
  refine ⟨rfl, rfl, rfl⟩

/-- C2 (amended): whenever the internal steps of submit_commands (queue
family lookup, replacement command-buffer allocation, build) succeed, then
after the call — whether the swapchain submit itself succeeds or returns an
error — the pending upload-signal set is empty (upload_futures is None and
the count 0), the accumulated composite signal was passed to the swapchain
submit exactly once as its wait gate, and a fresh empty recording is
installed; if the queue-family lookup or the allocation fails, the call
errors with the context unchanged; if the build of the taken recording
fails, the call errors with the futures drained and a fresh empty recording
installed but with nothing submitted to the swapchain. -/
theorem c2_submit_postconditions (ctx : RenderContext) (presentErr : Option RenderErr) :
    ((ctx.submitCommands true true true presentErr).1.uploadFutures = none
    ∧ (ctx.submitCommands true true true presentErr).1.uploadFuturesCount = 0
    ∧ (ctx.submitCommands true true true presentErr).1.curCmds = []
    ∧ (ctx.submitCommands true true true presentErr).1.submitted
        = ctx.submitted ++ [(ctx.curCmds, ctx.uploadFutures)]
    ∧ (ctx.submitCommands true true true presentErr).2 = presentErr)
    ∧ (ctx.submitCommands true false true presentErr
        = (ctx, some RenderErr.commandBufferAllocFailed))
    ∧ (ctx.submitCommands false true true presentErr
        = (ctx, some RenderErr.noActiveQueueFamily))
    ∧ ((ctx.submitCommands true true false presentErr).1.uploadFutures = none
    ∧ (ctx.submitCommands true true false presentErr).1.uploadFuturesCount = 0
    ∧ (ctx.submitCommands true true false presentErr).1.curCmds = []
    ∧ (ctx.submitCommands true true false presentErr).1.submitted = ctx.submitted
    ∧ (ctx.submitCommands true true false presentErr).2
        = some RenderErr.commandBufferBuildFailed) := by
  refine ⟨⟨?_, ?_, ?_, ?_, ?_⟩, ?_, ?_, ?_, ?_, ?_, ?_, ?_⟩ <;>
    simp [RenderContext.submitCommands]

/-- The context right after a successful begin_main_render_pass on the
fresh context: a recording with an open render pass. -/
def recordingContext : RenderContext :=
  (RenderContext.freshContext.beginMainRenderPass false).1

/-- C3 (counterexample): with a render pass already open, a second
begin_main_render_pass fails — but with the backend render-pass-already-
active error, not with an AlreadyRecording usage error, which the
repository never defines or produces. -/
theorem c3_error_counterexample :
    (recordingContext.beginMainRenderPass false).2 = some RenderErr.renderPassAlreadyActive
    ∧ (recordingContext.beginMainRenderPass false).2 ≠ some RenderErr.alreadyRecording := by
  refine ⟨rfl, by decide⟩

/-- C3 (amended): for every render context in which a frame recording is
already open (a render pass was begun and neither ended nor submitted),
calling begin_main_render_pass again fails — the command recorder rejects
beginning a render pass while one is open — and no second recording is
opened: no command is recorded and the open render pass stays open.  The
error is the backend error, not a repo-defined AlreadyRecording. -/
theorem c3_second_begin_fails (ctx : RenderContext) (resized : Bool)
    (h : ctx.inRenderPass = true) :
    (ctx.beginMainRenderPass resized).2.isSome = true
    ∧ (ctx.beginMainRenderPass resized).1.curCmds = ctx.curCmds
    ∧ (ctx.beginMainRenderPass resized).1.inRenderPass = true := by
  cases resized with
  | false => simp [RenderContext.beginMainRenderPass, RenderContext.beginRenderPassCmd, h]
  | true =>
    rcases h2 : (resizePipelines none ctx.surfaceDims ctx.pipelines).2 with _ | e
    · simp [RenderContext.beginMainRenderPass, h2, RenderContext.beginRenderPassCmd, h]
    · simp [RenderContext.beginMainRenderPass, h2, RenderContext.beginRenderPassCmd, h]

/-- C3 (witness): the amended theorem evaluated right after a first
begin_main_render_pass on the fresh context. -/
theorem c3_second_begin_fails_witness :
    (recordingContext.beginMainRenderPass false).2.isSome = true
    ∧ (recordingContext.beginMainRenderPass false).1.curCmds = recordingContext.curCmds
    ∧ (recordingContext.beginMainRenderPass false).1.inRenderPass = true :=
  c3_second_begin_fails recordingContext false rfl

/-- C4: for every render context in which no pipeline is currently bound,
bind_descriptor_set fails with PipelineNotLoaded and changes nothing — in
particular it records no bind command. -/
theorem c4_bind_descriptor_set_unbound (ctx : RenderContext) (firstSet sets : Nat)
    (h : ctx.boundPipeline = none) :
    ctx.bindDescriptorSet firstSet sets = (ctx, some RenderErr.pipelineNotLoaded) := by
  simp [RenderContext.bindDescriptorSet, h]

/-- C4 (witness): on the freshly constructed context, on which
bind_pipeline has never been called. -/
theorem c4_bind_descriptor_set_unbound_witness :
    RenderContext.freshContext.bindDescriptorSet 0 1
      = (RenderContext.freshContext, some RenderErr.pipelineNotLoaded) :=
  c4_bind_descriptor_set_unbound RenderContext.freshContext 0 1 rfl

/-- C5: bind_pipeline fails with PipelineNotLoaded (changing nothing) when
no pipeline of the given name is registered; otherwise it succeeds, records
a bind command, and remembers the pipeline by its name in the non-owning
bound-pipeline reference, so that subsequent bind_descriptor_set calls
succeed against it. -/
theorem c5_bind_pipeline_lookup (ctx : RenderContext) (name : String) :
    (lookupPipeline ctx.pipelines name = none →
      ctx.bindPipeline name = (ctx, some RenderErr.pipelineNotLoaded))
    ∧ (∀ pl, lookupPipeline ctx.pipelines name = some pl →
      (ctx.bindPipeline name).2 = none
      ∧ (ctx.bindPipeline name).1.curCmds = ctx.curCmds ++ [Cmd.bindPipeline name]
      ∧ (ctx.bindPipeline name).1.boundPipeline = some name
      ∧ ∀ firstSet sets,
          ((ctx.bindPipeline name).1.bindDescriptorSet firstSet sets).2 = none) := by
  constructor
  · intro h
    simp [RenderContext.bindPipeline, h]
  · intro pl h
    simp [RenderContext.bindPipeline, h, RenderContext.bindDescriptorSet]

def missingName : String := "Missing"

/-- C5 (witness): on the fresh context, binding an unregistered name fails
and binding the UI pipeline succeeds. -/
theorem c5_bind_pipeline_lookup_witness :
    (RenderContext.freshContext.bindPipeline missingName
      = (RenderContext.freshContext, some RenderErr.pipelineNotLoaded))
    ∧ ((RenderContext.freshContext.bindPipeline uiName).2 = none
      ∧ (RenderContext.freshContext.bindPipeline uiName).1.curCmds
          = RenderContext.freshContext.curCmds ++ [Cmd.bindPipeline uiName]
      ∧ (RenderContext.freshContext.bindPipeline uiName).1.boundPipeline = some uiName
      ∧ ∀ firstSet sets,
          ((RenderContext.freshContext.bindPipeline uiName).1.bindDescriptorSet
            firstSet sets).2 = none) :=
  ⟨(c5_bind_pipeline_lookup RenderContext.freshContext missingName).1 (by decide),
   (c5_bind_pipeline_lookup RenderContext.freshContext uiName).2
     { viewport := (1280, 720), strongExt := 0 } (by decide)⟩

/-- C6: the composite signal passed to submission is order-independent:
accumulating any two permuted sequences of pending upload operations yields
submission gates that wait on the same multiset of elementary signals (the
semantic join is associative and commutative with the empty pending set as
identity). -/
theorem c6_upload_join_order_independent (ctx : RenderContext) (l1 l2 : List Sig)
    (h : l1.Perm l2) :
    waitGate (l1.foldl RenderContext.newBuffer ctx).uploadFutures
      = waitGate (l2.foldl RenderContext.newBuffer ctx).uploadFutures := by
  rw [waitGate_foldl, waitGate_foldl, (h.map Sig.leaves).sum_eq]

/-- C6 (witness): uploads A then B against B then A on the fresh context. -/
theorem c6_upload_join_order_independent_witness :
    waitGate (([Sig.leaf 0, Sig.leaf 1]).foldl RenderContext.newBuffer
        RenderContext.freshContext).uploadFutures
      = waitGate (([Sig.leaf 1, Sig.leaf 0]).foldl RenderContext.newBuffer
        RenderContext.freshContext).uploadFutures :=
  c6_upload_join_order_independent RenderContext.freshContext _ _
    (List.Perm.swap (Sig.leaf 1) (Sig.leaf 0) [])

/-- C9: adapter selection picks a discrete GPU if one is enumerable,
otherwise an integrated GPU if one is enumerable, and otherwise fails with
the no-suitable-adapter error; adapters of other types (virtual, CPU,
other) are never selected. -/
theorem c9_adapter_selection (adapters : List Adapter) :
    (∀ a, selectPhysicalDevice adapters = Except.ok a →
        a.devType = DeviceType.discreteGpu ∨ a.devType = DeviceType.integratedGpu)
    ∧ ((∃ a ∈ adapters, a.devType = DeviceType.discreteGpu) →
        ∃ a, selectPhysicalDevice adapters = Except.ok a
          ∧ a.devType = DeviceType.discreteGpu)
    ∧ ((∀ a ∈ adapters, a.devType ≠ DeviceType.discreteGpu) →
        (∃ a ∈ adapters, a.devType = DeviceType.integratedGpu) →
        ∃ a, selectPhysicalDevice adapters = Except.ok a
          ∧ a.devType = DeviceType.integratedGpu)
    ∧ ((∀ a ∈ adapters,
          a.devType ≠ DeviceType.discreteGpu ∧ a.devType ≠ DeviceType.integratedGpu) →
        selectPhysicalDevice adapters = Except.error "No GPUs were found!") := by
  refine ⟨?_, ?_, ?_, ?_⟩
  · intro a ha
    unfold selectPhysicalDevice at ha
    rcases h1 : adapters.find? (fun pd => pd.devType == DeviceType.discreteGpu) with _ | g
    · rw [h1] at ha
      rcases h2 : adapters.find? (fun pd => pd.devType == DeviceType.integratedGpu) with _ | g
      · rw [h2] at ha; cases ha
      · rw [h2] at ha
        have := List.find?_some h2
        right
        cases ha
        simpa using this
    · rw [h1] at ha
      have := List.find?_some h1
      left
      cases ha
      simpa using this
  · rintro ⟨a, ha, hd⟩
    obtain ⟨b, hb, hpb⟩ :=
      find?_some_of_mem (fun pd => pd.devType == DeviceType.discreteGpu) ha (by simp [hd])
    exact ⟨b, by simp [selectPhysicalDevice, hb], by simpa using hpb⟩
  · intro hnod
    rintro ⟨a, ha, hi⟩
    have h1 : adapters.find? (fun pd => pd.devType == DeviceType.discreteGpu) = none := by
      rw [List.find?_eq_none]
      intro x hx
      simpa using hnod x hx
    obtain ⟨b, hb, hpb⟩ :=
      find?_some_of_mem (fun pd => pd.devType == DeviceType.integratedGpu) ha (by simp [hi])
    exact ⟨b, by simp [selectPhysicalDevice, h1, hb], by simpa using hpb⟩
  · intro hno
    have h1 : adapters.find? (fun pd => pd.devType == DeviceType.discreteGpu) = none := by
      rw [List.find?_eq_none]
      intro x hx
      simpa using (hno x hx).1
    have h2 : adapters.find? (fun pd => pd.devType == DeviceType.integratedGpu) = none := by
      rw [List.find?_eq_none]
      intro x hx
      simpa using (hno x hx).2
    simp [selectPhysicalDevice, h1, h2]

def gfxQueueFam : QueueFam := { supportsGraphics := true }

def adaptersWithDiscrete : List Adapter :=
  [{ devType := DeviceType.cpu, queueFamilies := [gfxQueueFam] },
   { devType := DeviceType.integratedGpu, queueFamilies := [gfxQueueFam] },
   { devType := DeviceType.discreteGpu, queueFamilies := [gfxQueueFam] }]

def adaptersWithIntegrated : List Adapter :=
  [{ devType := DeviceType.virtualGpu, queueFamilies := [gfxQueueFam] },
   { devType := DeviceType.integratedGpu, queueFamilies := [gfxQueueFam] }]

def adaptersWithoutGpu : List Adapter :=
  [{ devType := DeviceType.cpu, queueFamilies := [gfxQueueFam] },
   { devType := DeviceType.virtualGpu, queueFamilies := [gfxQueueFam] },
   { devType := DeviceType.other, queueFamilies := [gfxQueueFam] }]

/-- C9 (witness): selection evaluated on a list containing a discrete GPU,
a list with only an integrated GPU, and a list with neither. -/
theorem c9_adapter_selection_witness :
    (∃ a, selectPhysicalDevice adaptersWithDiscrete = Except.ok a
      ∧ a.devType = DeviceType.discreteGpu)
    ∧ (∃ a, selectPhysicalDevice adaptersWithIntegrated = Except.ok a
      ∧ a.devType = DeviceType.integratedGpu)
    ∧ selectPhysicalDevice adaptersWithoutGpu = Except.error "No GPUs were found!" :=
  ⟨(c9_adapter_selection adaptersWithDiscrete).2.1 (by decide),
   (c9_adapter_selection adaptersWithIntegrated).2.2.1 (by decide) (by decide),
   (c9_adapter_selection adaptersWithoutGpu).2.2.2 (by decide)⟩

/-- C10: whenever begin_main_render_pass handles a resize, the previously
bound pipeline reference is cleared, so a subsequent bind_descriptor_set
fails with PipelineNotLoaded — even if a pipeline had been bound before the
resize — until bind_pipeline is called again, after which
bind_descriptor_set succeeds. -/
theorem c10_resize_clears_bound_pipeline (ctx : RenderContext) (firstSet sets : Nat) :
    (ctx.beginMainRenderPass true).1.boundPipeline = none
    ∧ ((ctx.beginMainRenderPass true).1.bindDescriptorSet firstSet sets).2
        = some RenderErr.pipelineNotLoaded
    ∧ ∀ name pl,
        lookupPipeline (ctx.beginMainRenderPass true).1.pipelines name = some pl →
        ((((ctx.beginMainRenderPass true).1.bindPipeline name).1).bindDescriptorSet
          firstSet sets).2 = none := by
  have h1 : (ctx.beginMainRenderPass true).1.boundPipeline = none := by
    rcases h2 : (resizePipelines none ctx.surfaceDims ctx.pipelines).2 with _ | e
    · by_cases hrp : ctx.inRenderPass = true
      · simp [RenderContext.beginMainRenderPass, h2, RenderContext.beginRenderPassCmd, hrp]
      · simp [RenderContext.beginMainRenderPass, h2, RenderContext.beginRenderPassCmd, hrp]
    · simp [RenderContext.beginMainRenderPass, h2]
  refine ⟨h1, ?_, ?_⟩
  · simp [RenderContext.bindDescriptorSet, h1]
  · intro name pl hpl
    simp [RenderContext.bindPipeline, hpl, RenderContext.bindDescriptorSet]

/-- The fresh context with the UI pipeline bound. -/
def boundContext : RenderContext := (RenderContext.freshContext.bindPipeline uiName).1

/-- C10 (witness): a context with the UI pipeline bound, undergoing a
resize: descriptor-set binding fails until the pipeline is bound again. -/
theorem c10_resize_clears_bound_pipeline_witness :
    (boundContext.beginMainRenderPass true).1.boundPipeline = none
    ∧ ((boundContext.beginMainRenderPass true).1.bindDescriptorSet 0 1).2
        = some RenderErr.pipelineNotLoaded
    ∧ ((((boundContext.beginMainRenderPass true).1.bindPipeline uiName).1).bindDescriptorSet
        0 1).2 = none :=
  ⟨(c10_resize_clears_bound_pipeline boundContext 0 1).1,
   (c10_resize_clears_bound_pipeline boundContext 0 1).2.1,
   (c10_resize_clears_bound_pipeline boundContext 0 1).2.2 uiName
     { viewport := (1280, 720), strongExt := 0 } (by decide)⟩

end MithrilEngine
